import Mathlib

/-!
Verification of the NuriMate memory subsystem (`nurimate_backend/memory_system.py`).

The Python classes `MemorySystem`, `ShortTermMemory` and `LongTermMemory` are
shallowly embedded.  Python dictionaries holding JSON-shaped data (the
long-term profile, session summaries, event details) are modelled by the
inductive type `Json`; dictionary access `d[k]` becomes `Json.get` returning
`Option Json` (`none` models a raised `KeyError` / `TypeError` / attribute
error), and dictionary assignment `d[k] = v` becomes `Json.set` (keeping the
insertion-order semantics of CPython dicts: an existing key keeps its slot,
a new key is appended at the end).  Fallible Python code is modelled in the
`Option` monad.  Wall-clock reads (`time.time()`, `datetime.now()`) are
passed as explicit parameters.  The file system is modelled as an
association list from path to file content, where a stored file is either
`valid j` — text that `json.load` parses back to the value `j` (the
`json.dump`/`json.load` pair of the Python standard library is abstracted as
the identity on JSON values) — or `invalid`, text that fails to parse.
-/

/-- JSON-shaped dynamic values, the payload type of the Python dicts used by
the memory system.  Numbers (Python ints and floats) are modelled by `ℚ`. -/
inductive Json where
  | null : Json
  | bool : Bool → Json
  | num : ℚ → Json
  | str : String → Json
  | arr : List Json → Json
  | obj : List (String × Json) → Json

/-- CPython dict assignment `d[k] = v` on the underlying association list:
an existing key keeps its position, a fresh key is appended at the end. -/
def setAssoc {α : Type} : List (String × α) → String → α → List (String × α)
  | [], k, v => [(k, v)]
  | (k', v') :: rest, k, v =>
      if k' == k then (k, v) :: rest else (k', v') :: setAssoc rest k v

/-- Dict read `d[k]`: `none` models the `KeyError` (or the `TypeError` of
subscripting a non-dict). -/
def Json.get : Json → String → Option Json
  | .obj kvs, k => kvs.lookup k
  | _, _ => none

/-- Dict read with default, Python `d.get(k, default)`. -/
def Json.getD (j : Json) (k : String) (d : Json) : Json :=
  (j.get k).getD d

/-- Dict assignment `d[k] = v`; `none` models the `TypeError` of assigning
into a non-dict. -/
def Json.set : Json → String → Json → Option Json
  | .obj kvs, k, v => some (.obj (setAssoc kvs k v))
  | _, _, _ => none

/-- Views a value as a number; `none` models the `TypeError` Python raises
when arithmetic or comparison hits a non-number. -/
def Json.asNum : Json → Option ℚ
  | .num q => some q
  | _ => none

/-- Views a value as a list; `none` models the `TypeError`/`AttributeError`
Python raises when `len`, slicing or `.append` hits a non-list. -/
def Json.asArr : Json → Option (List Json)
  | .arr xs => some xs
  | _ => none

/-- The Python slice `xs[-n:]`: the at most `n` most recent entries of `xs`,
in arrival order. -/
def takeLast {α : Type} (xs : List α) (n : Nat) : List α :=
  (xs.reverse.take n).reverse

/- ### Stringification, Python `str(details)` -/

/-- The single-quote character, used by Python `repr` of strings. -/
def pyQuote : String := (Char.ofNat 39).toString

/-- Rendering of a number; stands in for Python int/float formatting. -/
def numRepr (q : ℚ) : String :=
  toString q.num ++ "/" ++ toString q.den

mutual

/-- Python `str(...)` applied to a JSON-shaped value (dicts render in
`repr` style: `\x7b'key': value\x7d`). -/
def pyStr : Json → String
  | .null => "None"
  | .bool true => "True"
  | .bool false => "False"
  | .num q => numRepr q
  | .str s => pyQuote ++ s ++ pyQuote
  | .arr xs => "[" ++ String.intercalate ", " (pyStrList xs) ++ "]"
  | .obj kvs => "\x7b" ++ String.intercalate ", " (pyStrObj kvs) ++ "\x7d"

/-- `pyStr` mapped over the elements of a list. -/
def pyStrList : List Json → List String
  | [] => []
  | x :: xs => pyStr x :: pyStrList xs

/-- `pyStr` rendering of the entries of a dict. -/
def pyStrObj : List (String × Json) → List String
  | [] => []
  | (k, v) :: kvs => (pyQuote ++ k ++ pyQuote ++ ": " ++ pyStr v) :: pyStrObj kvs

end

/- ### The file system -/

/-- The content of a persisted profile file: either text that `json.load`
parses back to a value, or text on which parsing fails. -/
inductive FileContent where
  | invalid : FileContent
  | valid : Json → FileContent

/-- The file system: an association list from path to file content; a path
absent from the list is a missing file. -/
def FS : Type := List (String × FileContent)

/-- Writing a file (used by `LongTermMemory.save` via `json.dump`). -/
def fsWrite (fs : FS) (p : String) (c : FileContent) : FS :=
  setAssoc fs p c

/-- Reading a file: `none` when the file does not exist. -/
def fsRead (fs : FS) (p : String) : Option FileContent :=
  List.lookup p fs

/- ### ShortTermMemory -/

/-- One conversation turn, the dict
`\x7b"role": .., "content": .., "time": ..\x7d` built by
`add_conversation` / `add_chat_message`. -/
structure ConversationTurn where
  role : String
  content : String
  time : ℚ
deriving DecidableEq, Repr

/-- One buffered game event, the dict
`\x7b"type": .., "details": .., "time": ..\x7d` built by `add_event`. -/
structure GameEvent where
  type : String
  details : Json
  time : ℚ

/-- The fields of the Python class `ShortTermMemory`. -/
structure ShortTermMemory where
  conversations : List ConversationTurn
  chat_conversations : List ConversationTurn
  game_events : List GameEvent
  max_conversations : Nat
  max_events : Nat
  session_start : ℚ

/-- `ShortTermMemory()` with its default arguments, at clock value `now`. -/
def ShortTermMemory.init (now : ℚ) : ShortTermMemory :=
  { conversations := []
    chat_conversations := []
    game_events := []
    max_conversations := 10
    max_events := 10
    session_start := now }

/-- `ShortTermMemory.add_conversation`: append a game-control turn, then pop
the oldest when the length exceeds `max_conversations`. -/
def ShortTermMemory.add_conversation (st : ShortTermMemory)
    (role content : String) (now : ℚ) : ShortTermMemory :=
  let cs := st.conversations ++ [⟨role, content, now⟩]
  let cs := if cs.length > st.max_conversations then cs.tail else cs
  { st with conversations := cs }

/-- `ShortTermMemory.add_chat_message`: append a chat-only turn, then pop the
oldest when the length exceeds the hard-coded bound 10. -/
def ShortTermMemory.add_chat_message (st : ShortTermMemory)
    (role content : String) (now : ℚ) : ShortTermMemory :=
  let cs := st.chat_conversations ++ [⟨role, content, now⟩]
  let cs := if cs.length > 10 then cs.tail else cs
  { st with chat_conversations := cs }

/-- `ShortTermMemory.get_chat_history`: the last 6 chat turns. -/
def ShortTermMemory.get_chat_history (st : ShortTermMemory) : List ConversationTurn :=
  takeLast st.chat_conversations 6

/-- `ShortTermMemory.add_event`: append a game event, then pop the oldest
when the length exceeds `max_events`. -/
def ShortTermMemory.add_event (st : ShortTermMemory)
    (event_type : String) (details : Json) (now : ℚ) : ShortTermMemory :=
  let es := st.game_events ++ [⟨event_type, details, now⟩]
  let es := if es.length > st.max_events then es.tail else es
  { st with game_events := es }

/-- The dict returned by `ShortTermMemory.get_summary`. -/
structure STSummary where
  recent_conversations : List ConversationTurn
  recent_chat_messages : List ConversationTurn
  recent_events : List GameEvent
  session_duration : ℚ

/-- `ShortTermMemory.get_summary`: last 5 conversation turns, last 3 chat
turns, last 5 events, and the session duration. -/
def ShortTermMemory.get_summary (st : ShortTermMemory) (now : ℚ) : STSummary :=
  { recent_conversations := takeLast st.conversations 5
    recent_chat_messages := takeLast st.chat_conversations 3
    recent_events := takeLast st.game_events 5
    session_duration := now - st.session_start }

/-- `ShortTermMemory._is_notable`: membership of the event type in the fixed
notable list. -/
def is_notable (e : GameEvent) : Bool :=
  ["close_call", "victory", "milestone"].contains e.type

/-- The dict `\x7b"type": .., "details": .., "time": ..\x7d` as a JSON
value, as it appears inside the `notable_events` of a session summary. -/
def GameEvent.toJson (e : GameEvent) : Json :=
  .obj [("type", .str e.type), ("details", e.details), ("time", .num e.time)]

/-- `ShortTermMemory.summarize_session`: the session-summary dict handed to
`LongTermMemory.integrate_session`. -/
def ShortTermMemory.summarize_session (st : ShortTermMemory) (now : ℚ) : Json :=
  .obj [("duration", .num (now - st.session_start)),
        ("conversation_count", .num st.conversations.length),
        ("event_count", .num st.game_events.length),
        ("notable_events", .arr ((st.game_events.filter is_notable).map GameEvent.toJson))]

/- ### LongTermMemory -/

/-- The file path `data/memory_\x7bplayer_id\x7d.json` used by
`LongTermMemory.__init__`. -/
def memoryFilePath (player_id : String) : String :=
  "data/memory_" ++ player_id ++ ".json"

/-- `LongTermMemory.create_new_profile`; `created_at` stands for
`datetime.now().isoformat()`. -/
def create_new_profile (player_id : String) (created_at : String) : Json :=
  .obj [("player_id", .str player_id),
        ("player_name", .str "Player"),
        ("created_at", .str created_at),
        ("playstyle", .str "unknown"),
        ("relationship_level", .num 1),
        ("memorable_moments", .arr []),
        ("preferences", .obj [("likes", .arr []), ("dislikes", .arr [])]),
        ("total_time_played", .num 0),
        ("sessions_count", .num 0)]

/-- `LongTermMemory.load`: the stored value when the file exists and parses,
otherwise (missing file, or any exception while reading/parsing, which is
caught and logged) a fresh profile.  Total: it never raises to the caller. -/
def LongTermMemory.load (player_id : String) (fs : FS) (created_at : String) : Json :=
  match fsRead fs (memoryFilePath player_id) with
  | some (.valid j) => j
  | some .invalid => create_new_profile player_id created_at
  | none => create_new_profile player_id created_at

/-- The fields of the Python class `LongTermMemory`. -/
structure LongTermMemory where
  player_id : String
  file_path : String
  data : Json

/-- `LongTermMemory.__init__`: derive the file path and load the profile. -/
def LongTermMemory.init (player_id : String) (fs : FS) (created_at : String) :
    LongTermMemory :=
  { player_id := player_id
    file_path := memoryFilePath player_id
    data := LongTermMemory.load player_id fs created_at }

/-- `LongTermMemory.save`: write the profile to the file (best effort; the
serialization of the library pair `json.dump`/`json.load` is abstracted as
storing the value itself). -/
def LongTermMemory.save (lt : LongTermMemory) (fs : FS) : FS :=
  fsWrite fs lt.file_path (.valid lt.data)

/-- The static summary table of `LongTermMemory._summarize_event`. -/
def summariesTable : List (String × String) :=
  [("close_call", "Had a close call in combat"),
   ("victory", "Achieved victory together"),
   ("defeat", "Faced defeat but learned from it"),
   ("milestone", "Reached an important milestone"),
   ("funny_moment", "Shared a funny moment"),
   ("first_time", "First time experience")]

/-- `LongTermMemory._summarize_event`: static lookup on the event type,
falling back to `str(details)` when the tag is not in the table. -/
def summarize_event (event_type : String) (details : Json) : String :=
  match summariesTable.lookup event_type with
  | some s => s
  | none => pyStr details

/-- The MemorableMoment dict built by `LongTermMemory.add_memory`; `date`
stands for `datetime.now().isoformat()`. -/
def memorableMoment (event_type : String) (details : Json) (date : String) : Json :=
  .obj [("date", .str date),
        ("type", .str event_type),
        ("summary", .str (summarize_event event_type details))]

/-- `LongTermMemory.add_memory`: append a MemorableMoment to
`data["memorable_moments"]`, popping the oldest when the length exceeds 10;
`none` models the exception raised when `memorable_moments` is missing or
not a list. -/
def LongTermMemory.add_memory (lt : LongTermMemory) (event_type : String)
    (details : Json) (date : String) : Option LongTermMemory := do
  let mm ← (← lt.data.get "memorable_moments").asArr
  let mm := mm ++ [memorableMoment event_type details date]
  let mm := if mm.length > 10 then mm.tail else mm
  let data ← lt.data.set "memorable_moments" (.arr mm)
  pure { lt with data := data }

/-- `LongTermMemory.get_relevant_memories`: the compressed read surface
\x7bplayer_name, playstyle, relationship_level, last 3 memorable moments,
preferences, sessions_count\x7d; `none` models a `KeyError` on a malformed
profile. -/
def LongTermMemory.get_relevant_memories (lt : LongTermMemory) : Option Json := do
  let pn ← lt.data.get "player_name"
  let ps ← lt.data.get "playstyle"
  let rl ← lt.data.get "relationship_level"
  let mm ← (← lt.data.get "memorable_moments").asArr
  let prefs ← lt.data.get "preferences"
  let sc ← lt.data.get "sessions_count"
  pure (.obj [("player_name", pn),
              ("playstyle", ps),
              ("relationship_level", rl),
              ("last_3_memories", .arr (takeLast mm 3)),
              ("player_preferences", prefs),
              ("sessions_count", sc)])

/-- `LongTermMemory._update_playstyle`: fixed thresholds on the number of
notable events; `none` models the `TypeError` of `len` on a non-list. -/
def update_playstyle (data : Json) (events : Json) : Option Json := do
  let es ← events.asArr
  if es.length > 5 then data.set "playstyle" (.str "aggressive")
  else if es.length > 2 then data.set "playstyle" (.str "balanced")
  else data.set "playstyle" (.str "tactical")

/-- `LongTermMemory.integrate_session`: accumulate play time, bump the
session count, raise the relationship level (clamped at 10) for sessions
longer than 600 seconds, and recompute the playstyle; `none` models an
exception on a malformed profile or summary. -/
def integrate_session (data summary : Json) : Option Json := do
  let dur ← (summary.getD "duration" (.num 0)).asNum
  let ttp ← (← data.get "total_time_played").asNum
  let data ← data.set "total_time_played" (.num (ttp + dur / 3600))
  let sc ← (← data.get "sessions_count").asNum
  let data ← data.set "sessions_count" (.num (sc + 1))
  let data ←
    if dur > 600 then do
      let rl ← (← data.get "relationship_level").asNum
      data.set "relationship_level" (.num (min 10 (rl + 1)))
    else pure data
  update_playstyle data (summary.getD "notable_events" (.arr []))

/- ### MemorySystem -/

/-- The fields of the Python class `MemorySystem`. -/
structure MemorySystem where
  player_id : String
  short_term : ShortTermMemory
  long_term : LongTermMemory

/-- `MemorySystem.__init__`. -/
def MemorySystem.init (player_id : String) (fs : FS) (created_at : String)
    (now : ℚ) : MemorySystem :=
  { player_id := player_id
    short_term := ShortTermMemory.init now
    long_term := LongTermMemory.init player_id fs created_at }

/-- `MemorySystem.add_conversation`, forwarding to the short-term buffer. -/
def MemorySystem.add_conversation (m : MemorySystem) (role message : String)
    (now : ℚ) : MemorySystem :=
  { m with short_term := m.short_term.add_conversation role message now }

/-- `MemorySystem.add_chat_message`, forwarding to the short-term buffer. -/
def MemorySystem.add_chat_message (m : MemorySystem) (role message : String)
    (now : ℚ) : MemorySystem :=
  { m with short_term := m.short_term.add_chat_message role message now }

/-- The fixed allow-list of `MemorySystem.is_memorable`. -/
def memorable_types : List String :=
  ["close_call", "victory", "defeat", "milestone", "funny_moment",
   "first_time", "achievement"]

/-- `MemorySystem.is_memorable`: membership in the fixed allow-list (the
`details` argument is accepted and ignored, as in the source). -/
def is_memorable (event_type : String) (details : Json) : Bool :=
  memorable_types.contains event_type

/-- `MemorySystem.add_game_event`: always push into the short-term buffer,
and forward to long-term `add_memory` exactly when the type is memorable. -/
def MemorySystem.add_game_event (m : MemorySystem) (event_type : String)
    (details : Json) (now : ℚ) (date : String) : Option MemorySystem :=
  let m := { m with short_term := m.short_term.add_event event_type details now }
  if is_memorable event_type details then do
    let lt ← m.long_term.add_memory event_type details date
    pure { m with long_term := lt }
  else pure m

/-- `MemorySystem.update_long_term` (the session-close step): summarize the
short-term buffer, integrate it into the long-term profile, and save. -/
def MemorySystem.update_long_term (m : MemorySystem) (fs : FS) (now : ℚ) :
    Option (MemorySystem × FS) := do
  let summary := m.short_term.summarize_session now
  let data ← integrate_session m.long_term.data summary
  let lt := { m.long_term with data := data }
  pure ({ m with long_term := lt }, lt.save fs)

/- ### Iterated calls -/

/-- A `record_game_event` input: type, details, and the two clock reads of
the call. -/
structure EventCall where
  type : String
  details : Json
  now : ℚ
  date : String

/-- Iterated `MemorySystem.add_game_event` over a list of inputs. -/
def runGameEvents (m : MemorySystem) : List EventCall → Option MemorySystem
  | [] => some m
  | c :: rest => do
      let m' ← m.add_game_event c.type c.details c.now c.date
      runGameEvents m' rest

/-- A `record_conversation` / `record_chat` input. -/
structure TurnCall where
  role : String
  content : String
  now : ℚ
deriving DecidableEq, Repr

/-- Iterated `ShortTermMemory.add_conversation`. -/
def runConversations (st : ShortTermMemory) : List TurnCall → ShortTermMemory
  | [] => st
  | c :: rest => runConversations (st.add_conversation c.role c.content c.now) rest

/-- Iterated `ShortTermMemory.add_chat_message`. -/
def runChats (st : ShortTermMemory) : List TurnCall → ShortTermMemory
  | [] => st
  | c :: rest => runChats (st.add_chat_message c.role c.content c.now) rest

/-- Iterated `ShortTermMemory.add_event`. -/
def runSTEvents (st : ShortTermMemory) : List EventCall → ShortTermMemory
  | [] => st
  | c :: rest => runSTEvents (st.add_event c.type c.details c.now) rest

/-- The playstyle string computed from a notable-event count. -/
def playstyleOf (n : Nat) : String :=
  if n > 5 then "aggressive" else if n > 2 then "balanced" else "tactical"

/- ### Lemmas about `setAssoc`, `lookup`, `takeLast` -/

theorem lookup_setAssoc_self {α : Type} (l : List (String × α)) (k : String) (v : α) :
    (setAssoc l k v).lookup k = some v := by
  induction l with
  | nil => simp [setAssoc, List.lookup]
  | cons hd tl ih =>
    obtain ⟨k', v'⟩ := hd
    by_cases h : k' = k
    · simp [setAssoc, h, List.lookup]
    · simp only [setAssoc, beq_iff_eq, h, if_false, List.lookup]
      have h2 : (k == k') = false := by simp [Ne.symm h]
      simp [h2, ih]

theorem lookup_setAssoc_ne {α : Type} (l : List (String × α)) (k k' : String) (v : α)
    (h : k' ≠ k) : (setAssoc l k v).lookup k' = l.lookup k' := by
  induction l with
  | nil =>
    have h2 : (k' == k) = false := by simp [h]
    simp [setAssoc, List.lookup, h2]
  | cons hd tl ih =>
    obtain ⟨ka, va⟩ := hd
    by_cases hk : ka = k
    · subst hk
      simp only [setAssoc, beq_self_eq_true, if_true, List.lookup]
      have h2 : (k' == ka) = false := by simp [h]
      simp [h2]
    · simp only [setAssoc, beq_iff_eq, hk, if_false, List.lookup]
      by_cases hx : k' = ka
      · simp [hx]
      · have h2 : (k' == ka) = false := by simp [hx]
        simp [h2, ih]

theorem takeLast_length {α : Type} (xs : List α) (n : Nat) :
    (takeLast xs n).length = min n xs.length := by
  simp [takeLast]

theorem takeLast_eq_drop {α : Type} (xs : List α) (n : Nat) :
    takeLast xs n = xs.drop (xs.length - n) := by
  simp [takeLast, List.reverse_take, List.length_reverse]

theorem takeLast_of_length_le {α : Type} (xs : List α) (n : Nat)
    (h : xs.length ≤ n) : takeLast xs n = xs := by
  rw [takeLast_eq_drop, Nat.sub_eq_zero_of_le h, List.drop_zero]

theorem takeLast_append_takeLast {α : Type} (n : Nat) (a ys : List α) :
    takeLast (takeLast a n ++ ys) n = takeLast (a ++ ys) n := by
  unfold takeLast
  rw [List.reverse_append, List.reverse_reverse, List.reverse_append]
  congr 1
  rw [List.take_append_eq_append_take, List.take_append_eq_append_take, List.take_take]
  rw [Nat.min_eq_left (Nat.sub_le _ _)]

/- ### Helper lemmas about the embedding -/

theorem Json.get_obj (kvs : List (String × Json)) (k : String) :
    (Json.obj kvs).get k = kvs.lookup k := rfl

theorem Json.get_some_obj {j : Json} {k : String} {v : Json}
    (h : j.get k = some v) : ∃ kvs, j = .obj kvs := by
  cases j <;> first
    | exact ⟨_, rfl⟩
    | simp [Json.get] at h

theorem evictAppend_eq_takeLast {α : Type} (l : List α) (x : α) (n : Nat)
    (h : l.length ≤ n) :
    (if (l ++ [x]).length > n then (l ++ [x]).tail else (l ++ [x]))
      = takeLast (l ++ [x]) n := by
  by_cases hc : (l ++ [x]).length > n
  · rw [if_pos hc, takeLast_eq_drop]
    have hl : l.length = n := by
      simp only [List.length_append, List.length_singleton] at hc
      omega
    have : (l ++ [x]).length - n = 1 := by
      simp [List.length_append, hl]
    rw [this, List.drop_one]
  · rw [if_neg hc, takeLast_of_length_le]
    omega

theorem runConversations_spec (cs : List TurnCall) (st : ShortTermMemory)
    (h : st.conversations.length ≤ st.max_conversations) :
    (runConversations st cs).conversations
        = takeLast (st.conversations ++ cs.map (fun c => ⟨c.role, c.content, c.now⟩))
            st.max_conversations
      ∧ (runConversations st cs).max_conversations = st.max_conversations := by
  induction cs generalizing st with
  | nil =>
    simp only [runConversations, List.map_nil, List.append_nil]
    exact ⟨(takeLast_of_length_le _ _ h).symm, trivial⟩
  | cons c rest ih =>
    simp only [runConversations, List.map_cons]
    have hstep : (st.add_conversation c.role c.content c.now).conversations
        = takeLast (st.conversations ++ [⟨c.role, c.content, c.now⟩]) st.max_conversations :=
      evictAppend_eq_takeLast _ _ _ h
    have hmax : (st.add_conversation c.role c.content c.now).max_conversations
        = st.max_conversations := rfl
    have hlen : (st.add_conversation c.role c.content c.now).conversations.length
        ≤ (st.add_conversation c.role c.content c.now).max_conversations := by
      rw [hstep, hmax, takeLast_length]
      omega
    obtain ⟨h1, h2⟩ := ih (st.add_conversation c.role c.content c.now) hlen
    refine ⟨?_, by rw [h2, hmax]⟩
    rw [h1, hstep, hmax, takeLast_append_takeLast, List.append_assoc]
    rfl

theorem runChats_spec (cs : List TurnCall) (st : ShortTermMemory)
    (h : st.chat_conversations.length ≤ 10) :
    (runChats st cs).chat_conversations
      = takeLast (st.chat_conversations ++ cs.map (fun c => ⟨c.role, c.content, c.now⟩)) 10 := by
  induction cs generalizing st with
  | nil =>
    simp only [runChats, List.map_nil, List.append_nil]
    exact (takeLast_of_length_le _ _ h).symm
  | cons c rest ih =>
    simp only [runChats, List.map_cons]
    have hstep : (st.add_chat_message c.role c.content c.now).chat_conversations
        = takeLast (st.chat_conversations ++ [⟨c.role, c.content, c.now⟩]) 10 :=
      evictAppend_eq_takeLast _ _ _ h
    have hlen : (st.add_chat_message c.role c.content c.now).chat_conversations.length ≤ 10 := by
      rw [hstep, takeLast_length]
      omega
    rw [ih _ hlen, hstep, takeLast_append_takeLast, List.append_assoc]
    rfl

theorem runSTEvents_spec (cs : List EventCall) (st : ShortTermMemory)
    (h : st.game_events.length ≤ st.max_events) :
    (runSTEvents st cs).game_events
        = takeLast (st.game_events ++ cs.map (fun c => ⟨c.type, c.details, c.now⟩)) st.max_events
      ∧ (runSTEvents st cs).max_events = st.max_events := by
  induction cs generalizing st with
  | nil =>
    simp only [runSTEvents, List.map_nil, List.append_nil]
    exact ⟨(takeLast_of_length_le _ _ h).symm, trivial⟩
  | cons c rest ih =>
    simp only [runSTEvents, List.map_cons]
    have hstep : (st.add_event c.type c.details c.now).game_events
        = takeLast (st.game_events ++ [⟨c.type, c.details, c.now⟩]) st.max_events :=
      evictAppend_eq_takeLast _ _ _ h
    have hmax : (st.add_event c.type c.details c.now).max_events = st.max_events := rfl
    have hlen : (st.add_event c.type c.details c.now).game_events.length
        ≤ (st.add_event c.type c.details c.now).max_events := by
      rw [hstep, hmax, takeLast_length]
      omega
    obtain ⟨h1, h2⟩ := ih (st.add_event c.type c.details c.now) hlen
    refine ⟨?_, by rw [h2, hmax]⟩
    rw [h1, hstep, hmax, takeLast_append_takeLast, List.append_assoc]
    rfl

theorem Json.asNum_num (q : ℚ) : (Json.num q).asNum = some q := rfl

theorem Json.asArr_arr (xs : List Json) : (Json.arr xs).asArr = some xs := rfl

theorem Json.set_obj (kvs : List (String × Json)) (k : String) (v : Json) :
    (Json.obj kvs).set k v = some (.obj (setAssoc kvs k v)) := rfl

theorem update_playstyle_obj (kvs : List (String × Json)) (evs : List Json) :
    update_playstyle (.obj kvs) (.arr evs)
      = some (.obj (setAssoc kvs "playstyle"
          (.str (if evs.length > 5 then "aggressive"
                 else if evs.length > 2 then "balanced" else "tactical")))) := by
  by_cases h5 : evs.length > 5
  · simp [update_playstyle, Json.asArr, Json.set, h5]
  · by_cases h2 : evs.length > 2
    · simp [update_playstyle, Json.asArr, Json.set, h5, h2]
    · simp [update_playstyle, Json.asArr, Json.set, h5, h2]

theorem integrate_session_obj_eq (kvs : List (String × Json)) (summary : Json)
    (ttp sc rl dur : ℚ) (evs : List Json)
    (h1 : List.lookup "total_time_played" kvs = some (.num ttp))
    (h2 : List.lookup "sessions_count" kvs = some (.num sc))
    (h3 : List.lookup "relationship_level" kvs = some (.num rl))
    (h4 : summary.get "duration" = some (.num dur))
    (h5 : summary.get "notable_events" = some (.arr evs)) :
    integrate_session (.obj kvs) summary
      = some (.obj (setAssoc
          (if dur > 600 then
            setAssoc (setAssoc (setAssoc kvs "total_time_played" (.num (ttp + dur / 3600)))
                "sessions_count" (.num (sc + 1)))
              "relationship_level" (.num (min 10 (rl + 1)))
          else
            setAssoc (setAssoc kvs "total_time_played" (.num (ttp + dur / 3600)))
              "sessions_count" (.num (sc + 1)))
          "playstyle" (.str (playstyleOf evs.length)))) := by
  have hdur : summary.getD "duration" (.num 0) = Json.num dur := by
    rw [Json.getD, h4]; rfl
  have hev : summary.getD "notable_events" (.arr []) = Json.arr evs := by
    rw [Json.getD, h5]; rfl
  have e1 : List.lookup "sessions_count"
      (setAssoc kvs "total_time_played" (.num (ttp + dur / 3600))) = some (.num sc) :=
    (lookup_setAssoc_ne kvs "total_time_played" "sessions_count"
      (.num (ttp + dur / 3600)) (by decide)).trans h2
  have e2 : List.lookup "relationship_level"
      (setAssoc (setAssoc kvs "total_time_played" (.num (ttp + dur / 3600)))
        "sessions_count" (.num (sc + 1))) = some (.num rl) :=
    ((lookup_setAssoc_ne _ "sessions_count" "relationship_level"
        (.num (sc + 1)) (by decide)).trans
      ((lookup_setAssoc_ne kvs "total_time_played" "relationship_level"
        (.num (ttp + dur / 3600)) (by decide)).trans h3))
  by_cases hgt : dur > 600
  · simp only [integrate_session, hdur, Json.asNum_num, Option.bind_eq_bind',
      Option.some_bind', Json.get_obj, h1, Json.set_obj, e1, if_pos hgt, e2, hev,
      update_playstyle_obj, playstyleOf, Option.pure_def]
  · simp only [integrate_session, hdur, Json.asNum_num, Option.bind_eq_bind',
      Option.some_bind', Json.get_obj, h1, Json.set_obj, e1, if_neg hgt, e2, hev,
      update_playstyle_obj, playstyleOf, Option.pure_def]

theorem integrate_session_fields (kvs : List (String × Json)) (summary : Json)
    (ttp sc rl dur : ℚ) (evs : List Json)
    (h1 : List.lookup "total_time_played" kvs = some (.num ttp))
    (h2 : List.lookup "sessions_count" kvs = some (.num sc))
    (h3 : List.lookup "relationship_level" kvs = some (.num rl))
    (h4 : summary.get "duration" = some (.num dur))
    (h5 : summary.get "notable_events" = some (.arr evs)) :
    ∃ kvs', integrate_session (.obj kvs) summary = some (.obj kvs')
      ∧ List.lookup "total_time_played" kvs' = some (.num (ttp + dur / 3600))
      ∧ List.lookup "sessions_count" kvs' = some (.num (sc + 1))
      ∧ List.lookup "relationship_level" kvs'
          = some (.num (if dur > 600 then min 10 (rl + 1) else rl))
      ∧ List.lookup "playstyle" kvs' = some (.str (playstyleOf evs.length))
      ∧ ∀ k, k ≠ "total_time_played" → k ≠ "sessions_count" →
          k ≠ "relationship_level" → k ≠ "playstyle" →
          List.lookup k kvs' = List.lookup k kvs := by
  refine ⟨_, integrate_session_obj_eq kvs summary ttp sc rl dur evs h1 h2 h3 h4 h5,
    ?_, ?_, ?_, ?_, ?_⟩
  · by_cases hgt : dur > 600 <;>
      simp [hgt, lookup_setAssoc_ne, lookup_setAssoc_self, h1]
  · by_cases hgt : dur > 600 <;>
      simp [hgt, lookup_setAssoc_ne, lookup_setAssoc_self, h2]
  · by_cases hgt : dur > 600 <;>
      simp [hgt, lookup_setAssoc_ne, lookup_setAssoc_self, h3]
  · by_cases hgt : dur > 600 <;>
      simp [hgt, lookup_setAssoc_ne, lookup_setAssoc_self]
  · intro k hk1 hk2 hk3 hk4
    by_cases hgt : dur > 600 <;>
      simp [hgt, lookup_setAssoc_ne _ _ _ _ hk1, lookup_setAssoc_ne _ _ _ _ hk2,
        lookup_setAssoc_ne _ _ _ _ hk3, lookup_setAssoc_ne _ _ _ _ hk4]

theorem add_memory_spec (lt : LongTermMemory) (event_type : String) (details : Json)
    (date : String) (mm : List Json)
    (hget : lt.data.get "memorable_moments" = some (.arr mm))
    (hlen : mm.length ≤ 10) :
    ∃ lt', lt.add_memory event_type details date = some lt'
      ∧ lt'.data.get "memorable_moments"
          = some (.arr (takeLast (mm ++ [memorableMoment event_type details date]) 10))
      ∧ lt'.player_id = lt.player_id ∧ lt'.file_path = lt.file_path := by
  obtain ⟨kvs, hdd⟩ := Json.get_some_obj hget
  have hlook : List.lookup "memorable_moments" kvs = some (.arr mm) := by
    rw [hdd] at hget
    exact hget
  have hstep := evictAppend_eq_takeLast mm (memorableMoment event_type details date) 10 hlen
  refine ⟨{ lt with data := .obj (setAssoc kvs "memorable_moments"
      (.arr (takeLast (mm ++ [memorableMoment event_type details date]) 10))) },
    ?_, ?_, rfl, rfl⟩
  · simp only [LongTermMemory.add_memory, hdd, Json.get_obj, hlook, Json.asArr_arr,
      Option.bind_eq_bind', Option.some_bind', hstep, Json.set_obj, Option.pure_def]
  · simp only [Json.get_obj, lookup_setAssoc_self]

theorem runGameEvents_memorable (evs : List EventCall) (m : MemorySystem) (mm : List Json)
    (hall : ∀ c ∈ evs, c.type ∈ memorable_types)
    (hget : m.long_term.data.get "memorable_moments" = some (.arr mm))
    (hlen : mm.length ≤ 10) :
    ∃ m', runGameEvents m evs = some m'
      ∧ m'.long_term.data.get "memorable_moments"
          = some (.arr (takeLast
              (mm ++ evs.map (fun c => memorableMoment c.type c.details c.date)) 10)) := by
  induction evs generalizing m mm with
  | nil =>
    refine ⟨m, rfl, ?_⟩
    rw [List.map_nil, List.append_nil, takeLast_of_length_le _ _ hlen]
    exact hget
  | cons c rest ih =>
    have hmem : is_memorable c.type c.details = true := by
      have := hall c (by simp)
      simp [is_memorable, this]
    have hget1 : ({ m with short_term := m.short_term.add_event c.type c.details c.now
        } : MemorySystem).long_term.data.get "memorable_moments" = some (.arr mm) := hget
    obtain ⟨lt', he, hg', _, _⟩ := add_memory_spec
      ({ m with short_term := m.short_term.add_event c.type c.details c.now } : MemorySystem).long_term
      c.type c.details c.date mm hget1 hlen
    have hlen1 : (takeLast (mm ++ [memorableMoment c.type c.details c.date]) 10).length ≤ 10 := by
      rw [takeLast_length]
      omega
    obtain ⟨m', hrun, hfinal⟩ := ih
      { { m with short_term := m.short_term.add_event c.type c.details c.now } with long_term := lt' }
      (takeLast (mm ++ [memorableMoment c.type c.details c.date]) 10)
      (fun x hx => hall x (by simp [hx])) hg' hlen1
    refine ⟨m', ?_, ?_⟩
    · simp only [runGameEvents, MemorySystem.add_game_event, hmem, if_true,
        Option.bind_eq_bind', Option.some_bind', he, Option.pure_def, hrun]
    · rw [hfinal, takeLast_append_takeLast, List.append_assoc]
      rfl

theorem runGameEvents_nonmemorable (evs : List EventCall) (m : MemorySystem)
    (hall : ∀ c ∈ evs, c.type ∉ memorable_types) :
    ∃ m', runGameEvents m evs = some m'
      ∧ m'.long_term = m.long_term ∧ m'.player_id = m.player_id := by
  induction evs generalizing m with
  | nil => exact ⟨m, rfl, rfl, rfl⟩
  | cons c rest ih =>
    have hmem : is_memorable c.type c.details = false := by
      have := hall c (by simp)
      simp [is_memorable, this]
    obtain ⟨m', hrun, hlt, hpid⟩ := ih
      { m with short_term := m.short_term.add_event c.type c.details c.now }
      (fun x hx => hall x (by simp [hx]))
    refine ⟨m', ?_, hlt, hpid⟩
    simp only [runGameEvents, MemorySystem.add_game_event, hmem, Bool.false_eq_true,
      if_false, Option.bind_eq_bind', Option.some_bind', hrun, Option.pure_def]

/- ### Claims -/

/-- Claim C1: for every profile and session summary, `integrate_session` adds
`duration/3600` to `total_time_played`, increments `sessions_count` by exactly
one, sets `relationship_level` to `min 10 (rl + 1)` iff `duration > 600`
(otherwise it is unchanged), recomputes `playstyle` from the notable-event
count (`>5` aggressive, `>2` balanced, else tactical), and leaves every other
profile field unchanged. -/
theorem claim_c1_integrate_session (data summary : Json) (ttp sc rl dur : ℚ)
    (evs : List Json)
    (h1 : data.get "total_time_played" = some (.num ttp))
    (h2 : data.get "sessions_count" = some (.num sc))
    (h3 : data.get "relationship_level" = some (.num rl))
    (h4 : summary.get "duration" = some (.num dur))
    (h5 : summary.get "notable_events" = some (.arr evs)) :
    ∃ data', integrate_session data summary = some data'
      ∧ data'.get "total_time_played" = some (.num (ttp + dur / 3600))
      ∧ data'.get "sessions_count" = some (.num (sc + 1))
      ∧ data'.get "relationship_level"
          = some (.num (if dur > 600 then min 10 (rl + 1) else rl))
      ∧ data'.get "playstyle"
          = some (.str (if evs.length > 5 then "aggressive"
                        else if evs.length > 2 then "balanced" else "tactical"))
      ∧ ∀ k, k ≠ "total_time_played" → k ≠ "sessions_count" →
          k ≠ "relationship_level" → k ≠ "playstyle" → data'.get k = data.get k := by
  obtain ⟨kvs, hd⟩ := Json.get_some_obj h1
  subst hd
  obtain ⟨kvs', he, f1, f2, f3, f4, f5⟩ :=
    integrate_session_fields kvs summary ttp sc rl dur evs h1 h2 h3 h4 h5
  refine ⟨.obj kvs', he, f1, f2, f3, ?_, fun k a b c d => f5 k a b c d⟩
  simpa [playstyleOf, Json.get_obj] using f4

/-- Witness for C1: the profile with `relationship_level = 3`,
`sessions_count = 0` integrated with `duration = 700` and six notable events
gains a relationship level, a session, and the aggressive playstyle; with
`duration = 300` the relationship level is untouched. -/
theorem claim_c1_witness :
    ((700 : ℚ) > 600)
    ∧ (∃ d1, integrate_session
          (.obj [("relationship_level", .num 3), ("sessions_count", .num 0),
                 ("total_time_played", .num 0)])
          (.obj [("duration", .num 700),
                 ("notable_events", .arr [.null, .null, .null, .null, .null, .null])])
        = some d1
        ∧ d1.get "relationship_level" = some (.num (min 10 (3 + 1)))
        ∧ d1.get "sessions_count" = some (.num (0 + 1))
        ∧ d1.get "playstyle" = some (.str "aggressive"))
    ∧ (¬ ((300 : ℚ) > 600))
    ∧ (∃ d2, integrate_session
          (.obj [("relationship_level", .num 3), ("sessions_count", .num 0),
                 ("total_time_played", .num 0)])
          (.obj [("duration", .num 300), ("notable_events", .arr [])])
        = some d2
        ∧ d2.get "relationship_level" = some (.num 3)) := by
  refine ⟨by decide, ?_, by decide, ?_⟩
  · obtain ⟨d, he, _, f2, f3, f4, _⟩ := claim_c1_integrate_session
      (.obj [("relationship_level", .num 3), ("sessions_count", .num 0),
             ("total_time_played", .num 0)])
      (.obj [("duration", .num 700),
             ("notable_events", .arr [.null, .null, .null, .null, .null, .null])])
      0 0 3 700 [.null, .null, .null, .null, .null, .null] rfl rfl rfl rfl rfl
    refine ⟨d, he, ?_, f2, ?_⟩
    · rw [f3, if_pos (by decide : (700 : ℚ) > 600)]
    · rw [f4]
      rfl
  · obtain ⟨d, he, _, _, f3, _, _⟩ := claim_c1_integrate_session
      (.obj [("relationship_level", .num 3), ("sessions_count", .num 0),
             ("total_time_played", .num 0)])
      (.obj [("duration", .num 300), ("notable_events", .arr [])])
      0 0 3 300 [] rfl rfl rfl rfl rfl
    exact ⟨d, he, by rw [f3, if_neg (by decide : ¬ ((300 : ℚ) > 600))]⟩

/-- Claim C4: a sequence of `record_game_event` calls whose types all lie
outside the memorable allow-list leaves the Long-Term Store (and the player
id) completely unchanged: only the Short-Term Buffer is mutated. -/
theorem claim_c4_nonmemorable_frame (evs : List EventCall) (m : MemorySystem)
    (hall : ∀ c ∈ evs, c.type ∉ memorable_types) :
    ∃ m', runGameEvents m evs = some m'
      ∧ m'.long_term = m.long_term ∧ m'.player_id = m.player_id :=
  runGameEvents_nonmemorable evs m hall

/-- Witness for C4: a non-memorable "step" event leaves the long-term store
of a fresh `MemorySystem` untouched. -/
theorem claim_c4_witness :
    ("step" ∉ memorable_types)
    ∧ ∃ m', runGameEvents (MemorySystem.init "p" [] "t" 0)
          [⟨"step", .null, 0, "d"⟩] = some m'
        ∧ m'.long_term = (MemorySystem.init "p" [] "t" 0).long_term := by
  refine ⟨by decide, ?_⟩
  obtain ⟨m', hrun, hlt, _⟩ := claim_c4_nonmemorable_frame
    [⟨"step", .null, 0, "d"⟩] (MemorySystem.init "p" [] "t" 0) (by decide)
  exact ⟨m', hrun, hlt⟩

/-- Claim C5: `save()` followed by a fresh `load()` (re-initialisation) for
the same player id reproduces the in-memory profile field-for-field, given
no intervening mutation.  (Serialization by the `json` library is abstracted
as the identity on JSON values.) -/
theorem claim_c5_roundtrip (lt : LongTermMemory) (fs : FS) (created_at : String)
    (hpath : lt.file_path = memoryFilePath lt.player_id) :
    LongTermMemory.init lt.player_id (lt.save fs) created_at = lt := by
  obtain ⟨pid, path, dat⟩ := lt
  simp only at hpath
  subst hpath
  unfold LongTermMemory.init LongTermMemory.load LongTermMemory.save fsRead fsWrite
  simp [lookup_setAssoc_self]

/-- Witness for C5: a concrete profile survives a save/load round trip. -/
theorem claim_c5_witness :
    LongTermMemory.init "p"
        ((⟨"p", memoryFilePath "p", .num 7⟩ : LongTermMemory).save []) "t"
      = ⟨"p", memoryFilePath "p", .num 7⟩ :=
  claim_c5_roundtrip ⟨"p", memoryFilePath "p", .num 7⟩ [] "t" rfl

/-- Claim C6: `load` is total (it never raises: its result type is `Json`,
not an exception monad); on a missing or unparsable file it returns the
fresh profile, and the fresh profile has `relationship_level = 1`,
`sessions_count = 0`, empty `memorable_moments`, playstyle "unknown" and
`total_time_played = 0`. -/
theorem claim_c6_load_defaults (player_id created_at : String) (fs : FS)
    (hmiss : fsRead fs (memoryFilePath player_id) = none
      ∨ fsRead fs (memoryFilePath player_id) = some .invalid) :
    LongTermMemory.load player_id fs created_at
        = create_new_profile player_id created_at
    ∧ (create_new_profile player_id created_at).get "relationship_level"
        = some (.num 1)
    ∧ (create_new_profile player_id created_at).get "sessions_count"
        = some (.num 0)
    ∧ (create_new_profile player_id created_at).get "memorable_moments"
        = some (.arr [])
    ∧ (create_new_profile player_id created_at).get "playstyle"
        = some (.str "unknown")
    ∧ (create_new_profile player_id created_at).get "total_time_played"
        = some (.num 0) := by
  refine ⟨?_, rfl, rfl, rfl, rfl, rfl⟩
  rcases hmiss with h | h <;> simp [LongTermMemory.load, h]

/-- Witness for C6: loading a never-seen player id from an empty file system
yields the fresh default profile. -/
theorem claim_c6_witness :
    LongTermMemory.load "newbie" [] "t" = create_new_profile "newbie" "t"
    ∧ (create_new_profile "newbie" "t").get "relationship_level" = some (.num 1)
    ∧ (create_new_profile "newbie" "t").get "sessions_count" = some (.num 0)
    ∧ (create_new_profile "newbie" "t").get "memorable_moments" = some (.arr []) := by
  obtain ⟨h1, h2, h3, h4, _⟩ := claim_c6_load_defaults "newbie" "t" [] (Or.inl rfl)
  exact ⟨h1, h2, h3, h4⟩

/-- Claim C7: `get_relevant_memories` returns exactly the object with the six
fields player_name, playstyle, relationship_level, last_3_memories,
player_preferences and sessions_count — nothing else — where
`last_3_memories` holds at most 3 moments, namely the most recently added
ones in order (`mm.drop (mm.length - 3)`). -/
theorem claim_c7_relevant_memories (lt : LongTermMemory) (pn ps rl prefs sc : Json)
    (mm : List Json)
    (h1 : lt.data.get "player_name" = some pn)
    (h2 : lt.data.get "playstyle" = some ps)
    (h3 : lt.data.get "relationship_level" = some rl)
    (h4 : lt.data.get "memorable_moments" = some (.arr mm))
    (h5 : lt.data.get "preferences" = some prefs)
    (h6 : lt.data.get "sessions_count" = some sc) :
    lt.get_relevant_memories
        = some (.obj [("player_name", pn), ("playstyle", ps),
            ("relationship_level", rl), ("last_3_memories", .arr (takeLast mm 3)),
            ("player_preferences", prefs), ("sessions_count", sc)])
      ∧ (takeLast mm 3).length ≤ 3
      ∧ takeLast mm 3 = mm.drop (mm.length - 3) := by
  refine ⟨?_, ?_, takeLast_eq_drop mm 3⟩
  · simp only [LongTermMemory.get_relevant_memories, h1, h2, h3, h4, h5, h6,
      Json.asArr_arr, Option.bind_eq_bind', Option.some_bind', Option.pure_def]
  · rw [takeLast_length]
    omega

/-- Witness for C7: with ten stored moments the read surface exposes exactly
the three most recent ones. -/
theorem claim_c7_witness :
    (⟨"p", memoryFilePath "p",
        .obj [("player_name", .str "Player"), ("playstyle", .str "unknown"),
              ("relationship_level", .num 5),
              ("memorable_moments", .arr [.num 1, .num 2, .num 3, .num 4, .num 5,
                  .num 6, .num 7, .num 8, .num 9, .num 10]),
              ("preferences", .obj []), ("sessions_count", .num 4)]⟩ :
        LongTermMemory).get_relevant_memories
      = some (.obj [("player_name", .str "Player"), ("playstyle", .str "unknown"),
          ("relationship_level", .num 5),
          ("last_3_memories", .arr (takeLast [Json.num 1, .num 2, .num 3, .num 4,
              .num 5, .num 6, .num 7, .num 8, .num 9, .num 10] 3)),
          ("player_preferences", .obj []), ("sessions_count", .num 4)])
    ∧ takeLast [Json.num 1, .num 2, .num 3, .num 4, .num 5, .num 6, .num 7,
        .num 8, .num 9, .num 10] 3 = [Json.num 8, .num 9, .num 10] := by
  obtain ⟨h1, _, _⟩ := claim_c7_relevant_memories
    ⟨"p", memoryFilePath "p",
        .obj [("player_name", .str "Player"), ("playstyle", .str "unknown"),
              ("relationship_level", .num 5),
              ("memorable_moments", .arr [.num 1, .num 2, .num 3, .num 4, .num 5,
                  .num 6, .num 7, .num 8, .num 9, .num 10]),
              ("preferences", .obj []), ("sessions_count", .num 4)]⟩
    (.str "Player") (.str "unknown") (.num 5) (.obj []) (.num 4)
    [.num 1, .num 2, .num 3, .num 4, .num 5, .num 6, .num 7, .num 8, .num 9, .num 10]
    rfl rfl rfl rfl rfl rfl
  exact ⟨h1, rfl⟩

/-- Claim C10: `load` performs no shape validation — any stored value that
parses is returned unchanged — and on a profile object lacking the
`memorable_moments` key, `add_memory` and `get_relevant_memories` both fail
with a key-lookup error (modelled as `none`): the never-raises guarantee
covers only `load` itself. -/
theorem claim_c10_no_shape_validation :
    (∀ (fs : FS) (pid created_at : String) (j : Json),
        fsRead fs (memoryFilePath pid) = some (.valid j) →
        LongTermMemory.load pid fs created_at = j)
    ∧ LongTermMemory.add_memory
        ⟨"p", memoryFilePath "p",
          .obj [("player_id", .str "p"), ("player_name", .str "Player"),
                ("playstyle", .str "unknown"), ("relationship_level", .num 1),
                ("preferences", .obj []), ("total_time_played", .num 0),
                ("sessions_count", .num 0)]⟩ "victory" .null "d" = none
    ∧ (⟨"p", memoryFilePath "p",
          .obj [("player_id", .str "p"), ("player_name", .str "Player"),
                ("playstyle", .str "unknown"), ("relationship_level", .num 1),
                ("preferences", .obj []), ("total_time_played", .num 0),
                ("sessions_count", .num 0)]⟩ :
        LongTermMemory).get_relevant_memories = none := by
  refine ⟨fun fs pid created_at j h => ?_, rfl, rfl⟩
  simp [LongTermMemory.load, h]

/-- Witness for C10: a stored bare number — not a profile object at all — is
returned by `load` unchanged. -/
theorem claim_c10_witness :
    LongTermMemory.load "p" [(memoryFilePath "p", FileContent.valid (.num 5))] "t"
      = .num 5 :=
  claim_c10_no_shape_validation.1
    [(memoryFilePath "p", FileContent.valid (.num 5))] "p" "t" (.num 5) rfl

/-- Claim C2: a sequence of `record_game_event` calls whose types are all in
the allow-list appends exactly one MemorableMoment per call (in call order,
newest last), and `memorable_moments` never exceeds 10 entries, the oldest
being evicted first: the final store is exactly the last 10 of the initial
moments followed by the per-call moments. -/
theorem claim_c2_memorable_bound (evs : List EventCall) (m : MemorySystem)
    (mm : List Json)
    (hall : ∀ c ∈ evs, c.type ∈ memorable_types)
    (hget : m.long_term.data.get "memorable_moments" = some (.arr mm))
    (hlen : mm.length ≤ 10) :
    ∃ m', runGameEvents m evs = some m'
      ∧ m'.long_term.data.get "memorable_moments"
          = some (.arr (takeLast
              (mm ++ evs.map (fun c => memorableMoment c.type c.details c.date)) 10))
      ∧ (takeLast (mm ++ evs.map (fun c => memorableMoment c.type c.details c.date))
          10).length ≤ 10 := by
  obtain ⟨m', h1, h2⟩ := runGameEvents_memorable evs m mm hall hget hlen
  refine ⟨m', h1, h2, ?_⟩
  rw [takeLast_length]
  omega

/-- Witness for C2: three allow-list events on a fresh system store exactly
three moments. -/
theorem claim_c2_witness :
    (∀ c ∈ ([⟨"victory", .null, 0, "d1"⟩, ⟨"close_call", .null, 1, "d2"⟩,
        ⟨"achievement", .null, 2, "d3"⟩] : List EventCall), c.type ∈ memorable_types)
    ∧ ∃ m', runGameEvents (MemorySystem.init "p" [] "t" 0)
          [⟨"victory", .null, 0, "d1"⟩, ⟨"close_call", .null, 1, "d2"⟩,
           ⟨"achievement", .null, 2, "d3"⟩] = some m'
        ∧ m'.long_term.data.get "memorable_moments"
            = some (.arr (takeLast
                (([] : List Json) ++ ([⟨"victory", .null, 0, "d1"⟩,
                    ⟨"close_call", .null, 1, "d2"⟩,
                    ⟨"achievement", .null, 2, "d3"⟩] : List EventCall).map
                  (fun c => memorableMoment c.type c.details c.date)) 10)) := by
  refine ⟨by decide, ?_⟩
  obtain ⟨m', h1, h2, _⟩ := claim_c2_memorable_bound
    [⟨"victory", .null, 0, "d1"⟩, ⟨"close_call", .null, 1, "d2"⟩,
     ⟨"achievement", .null, 2, "d3"⟩]
    (MemorySystem.init "p" [] "t" 0) [] (by decide) rfl (by decide)
  exact ⟨m', h1, h2⟩

/-- Claim C3: each of the three short-term buffers (game-control
conversations, chat-only conversations, game events) is FIFO-bounded at 10 —
after any call sequence the buffer holds exactly the last 10 entries in
arrival order — and `get_summary` exposes the `min 5 n` most recent
conversation turns in arrival order (`drop (n - 5)`). -/
theorem claim_c3_short_term_bounds (st : ShortTermMemory) (cs chs : List TurnCall)
    (es : List EventCall) (now : ℚ)
    (hmc : st.max_conversations = 10) (hme : st.max_events = 10)
    (h1 : st.conversations.length ≤ 10) (h2 : st.chat_conversations.length ≤ 10)
    (h3 : st.game_events.length ≤ 10) :
    ((runConversations st cs).conversations
        = takeLast (st.conversations ++ cs.map (fun c => ⟨c.role, c.content, c.now⟩)) 10
      ∧ (runConversations st cs).conversations.length ≤ 10)
    ∧ ((runChats st chs).chat_conversations
        = takeLast (st.chat_conversations ++ chs.map (fun c => ⟨c.role, c.content, c.now⟩)) 10
      ∧ (runChats st chs).chat_conversations.length ≤ 10)
    ∧ ((runSTEvents st es).game_events
        = takeLast (st.game_events ++ es.map (fun c => ⟨c.type, c.details, c.now⟩)) 10
      ∧ (runSTEvents st es).game_events.length ≤ 10)
    ∧ (((runConversations st cs).get_summary now).recent_conversations
        = (runConversations st cs).conversations.drop
            ((runConversations st cs).conversations.length - 5)
      ∧ ((runConversations st cs).get_summary now).recent_conversations.length
        = min 5 (runConversations st cs).conversations.length) := by
  have h1' : st.conversations.length ≤ st.max_conversations := by omega
  have h3' : st.game_events.length ≤ st.max_events := by omega
  obtain ⟨hc, hcm⟩ := runConversations_spec cs st h1'
  have hch := runChats_spec chs st h2
  obtain ⟨he, hem⟩ := runSTEvents_spec es st h3'
  refine ⟨⟨?_, ?_⟩, ⟨hch, ?_⟩, ⟨?_, ?_⟩, ?_, ?_⟩
  · rw [hc, hmc]
  · rw [hc, takeLast_length, hmc]
    omega
  · rw [hch, takeLast_length]
    omega
  · rw [he, hme]
  · rw [he, takeLast_length, hme]
    omega
  · show takeLast (runConversations st cs).conversations 5 = _
    exact takeLast_eq_drop _ 5
  · show (takeLast (runConversations st cs).conversations 5).length = _
    rw [takeLast_length]

/-- Witness for C3: eleven conversation turns on a fresh buffer leave
exactly the last ten, and the summary exposes the last five. -/
theorem claim_c3_witness :
    ((runConversations (ShortTermMemory.init 0)
        ((List.range 11).map (fun i => ⟨"user", toString i, i⟩))).conversations
      = takeLast (([] : List ConversationTurn)
          ++ ((List.range 11).map (fun i => (⟨"user", toString i, i⟩ : TurnCall))).map
              (fun c => ⟨c.role, c.content, c.now⟩)) 10)
    ∧ (runConversations (ShortTermMemory.init 0)
        ((List.range 11).map (fun i => ⟨"user", toString i, i⟩))).conversations.length ≤ 10
    ∧ ((runConversations (ShortTermMemory.init 0)
          ((List.range 11).map (fun i => ⟨"user", toString i, i⟩))).get_summary 99).recent_conversations.length
      = min 5 (runConversations (ShortTermMemory.init 0)
          ((List.range 11).map (fun i => ⟨"user", toString i, i⟩))).conversations.length := by
  obtain ⟨⟨ha, hb⟩, _, _, _, hd⟩ := claim_c3_short_term_bounds (ShortTermMemory.init 0)
    ((List.range 11).map (fun i => ⟨"user", toString i, i⟩)) [] [] 99
    rfl rfl (by decide) (by decide) (by decide)
  exact ⟨ha, hb, hd⟩

theorem pyStr_obj_startsBrace (kvs : List (String × Json)) :
    (pyStr (.obj kvs)).data.head? = some (Char.ofNat 123) := by
  show (("\x7b" ++ String.intercalate ", " (pyStrObj kvs)) ++ "\x7d").data.head? = _
  simp [String.data_append]

theorem pyStr_obj_ne_canned (kvs : List (String × Json)) :
    pyStr (.obj kvs) ∉ List.map Prod.snd summariesTable := by
  intro hmem
  have hb := pyStr_obj_startsBrace kvs
  simp only [summariesTable, List.map_cons, List.map_nil, List.mem_cons,
    List.not_mem_nil, or_false] at hmem
  rcases hmem with h | h | h | h | h | h <;> rw [h] at hb <;> revert hb <;> decide

/-- Claim C9: the type "achievement" is in the memorable allow-list but
absent from the static summary lookup table, so `record_game_event` with an
"achievement" event stores a MemorableMoment whose summary is the
stringified `details` mapping (the unrecognized-tag fallback), which is
never one of the canned table phrases. -/
theorem claim_c9_achievement_fallback (m : MemorySystem) (details : Json)
    (now : ℚ) (date : String) (mm : List Json) (kvs : List (String × Json))
    (hdet : details = .obj kvs)
    (hget : m.long_term.data.get "memorable_moments" = some (.arr mm))
    (hlen : mm.length ≤ 10) :
    List.lookup "achievement" summariesTable = none
    ∧ is_memorable "achievement" details = true
    ∧ summarize_event "achievement" details = pyStr details
    ∧ pyStr details ∉ List.map Prod.snd summariesTable
    ∧ (memorableMoment "achievement" details date).get "summary"
        = some (.str (pyStr details))
    ∧ ∃ m', m.add_game_event "achievement" details now date = some m'
        ∧ m'.long_term.data.get "memorable_moments"
            = some (.arr (takeLast
                (mm ++ [memorableMoment "achievement" details date]) 10)) := by
  refine ⟨rfl, rfl, rfl, hdet ▸ pyStr_obj_ne_canned kvs, rfl, ?_⟩
  have hget1 : ({ m with short_term := m.short_term.add_event "achievement" details now
      } : MemorySystem).long_term.data.get "memorable_moments" = some (.arr mm) := hget
  obtain ⟨lt', he, hg, _, _⟩ := add_memory_spec
    ({ m with short_term := m.short_term.add_event "achievement" details now
      } : MemorySystem).long_term "achievement" details date mm hget1 hlen
  refine ⟨{ { m with short_term := m.short_term.add_event "achievement" details now
      } with long_term := lt' }, ?_, hg⟩
  simp only [MemorySystem.add_game_event, is_memorable, memorable_types]
  simp only [show (["close_call", "victory", "defeat", "milestone", "funny_moment",
      "first_time", "achievement"].contains "achievement") = true from rfl, if_true,
    Option.bind_eq_bind', Option.some_bind', he, Option.pure_def]

/-- Witness for C9: a concrete achievement event on a fresh system stores a
moment whose summary is the repr of its details dict, not a canned phrase. -/
theorem claim_c9_witness :
    summarize_event "achievement" (.obj [("name", .str "speedrun")])
        = pyStr (.obj [("name", .str "speedrun")])
    ∧ pyStr (Json.obj [("name", .str "speedrun")]) ∉ List.map Prod.snd summariesTable
    ∧ ∃ m', (MemorySystem.init "p" [] "t" 0).add_game_event "achievement"
          (.obj [("name", .str "speedrun")]) 0 "d" = some m'
        ∧ m'.long_term.data.get "memorable_moments"
            = some (.arr (takeLast (([] : List Json)
                ++ [memorableMoment "achievement" (.obj [("name", .str "speedrun")]) "d"]) 10)) := by
  obtain ⟨_, _, h3, h4, _, h6⟩ := claim_c9_achievement_fallback
    (MemorySystem.init "p" [] "t" 0) (.obj [("name", .str "speedrun")]) 0 "d" []
    [("name", .str "speedrun")] rfl rfl (by decide)
  exact ⟨h3, h4, h6⟩

theorem add_conversation_getLast (st : ShortTermMemory) (role content : String)
    (t : ℚ) (h : 1 ≤ st.max_conversations) :
    (st.add_conversation role content t).conversations.getLast?
      = some ⟨role, content, t⟩ := by
  show (if (st.conversations ++ [(⟨role, content, t⟩ : ConversationTurn)]).length
        > st.max_conversations
      then (st.conversations ++ [(⟨role, content, t⟩ : ConversationTurn)]).tail
      else (st.conversations ++ [(⟨role, content, t⟩ : ConversationTurn)])).getLast? = _
  by_cases hc : (st.conversations ++ [(⟨role, content, t⟩ : ConversationTurn)]).length
      > st.max_conversations
  · rw [if_pos hc]
    have hne : st.conversations ≠ [] := by
      intro hnil
      rw [hnil] at hc
      simp at hc
      omega
    rw [List.tail_append_of_ne_nil hne, List.getLast?_concat]
  · rw [if_neg hc, List.getLast?_concat]

theorem update_long_term_spec (m : MemorySystem) (fs : FS) (now : ℚ) (ttp sc rl : ℚ)
    (h1 : m.long_term.data.get "total_time_played" = some (.num ttp))
    (h2 : m.long_term.data.get "sessions_count" = some (.num sc))
    (h3 : m.long_term.data.get "relationship_level" = some (.num rl)) :
    ∃ m' fs', m.update_long_term fs now = some (m', fs')
      ∧ m'.short_term = m.short_term
      ∧ m'.player_id = m.player_id
      ∧ m'.long_term.player_id = m.long_term.player_id
      ∧ m'.long_term.file_path = m.long_term.file_path
      ∧ m'.long_term.data.get "total_time_played"
          = some (.num (ttp + (now - m.short_term.session_start) / 3600))
      ∧ m'.long_term.data.get "sessions_count" = some (.num (sc + 1))
      ∧ m'.long_term.data.get "relationship_level"
          = some (.num (if now - m.short_term.session_start > 600
              then min 10 (rl + 1) else rl)) := by
  obtain ⟨kvs, hd⟩ := Json.get_some_obj h1
  rw [hd] at h1 h2 h3
  obtain ⟨kvs', he, f1, f2, f3, _, _⟩ := integrate_session_fields kvs
    (m.short_term.summarize_session now) ttp sc rl
    (now - m.short_term.session_start)
    ((m.short_term.game_events.filter is_notable).map GameEvent.toJson)
    h1 h2 h3 rfl rfl
  refine ⟨{ m with long_term := { m.long_term with data := .obj kvs' } },
    ({ m.long_term with data := .obj kvs' } : LongTermMemory).save fs,
    ?_, rfl, rfl, rfl, rfl, f1, f2, f3⟩
  simp only [MemorySystem.update_long_term, hd, he, Option.bind_eq_bind',
    Option.some_bind', Option.pure_def]

/-- Counterexample to C8: the code has no CLOSED state.  On a fresh system,
after `update_long_term` (the close-session step) has run, `add_conversation`
returns normally and extends the buffer instead of raising, and a second
`update_long_term` also returns normally, raising `sessions_count` from 1 to
2 — so mutation after close neither fails loudly nor leaves state unchanged. -/
theorem claim_c8_counterexample :
    ∃ m1 fs1, (MemorySystem.init "alice" [] "t0" 0).update_long_term [] 0
        = some (m1, fs1)
      ∧ (m1.add_conversation "user" "hello" 1).short_term.conversations
          = [⟨"user", "hello", 1⟩]
      ∧ ∃ m2 fs2, m1.update_long_term fs1 5 = some (m2, fs2)
        ∧ (m2.long_term.data.get "sessions_count").bind Json.asNum = some 2 := by
  obtain ⟨m1, fs1, hu1, hst1, _, _, _, g1, g2, g3⟩ := update_long_term_spec
    (MemorySystem.init "alice" [] "t0" 0) [] 0 0 0 1 rfl rfl rfl
  obtain ⟨m2, fs2, hu2, _, _, _, _, _, g2', _⟩ :=
    update_long_term_spec m1 fs1 5 _ _ _ g1 g2 g3
  refine ⟨m1, fs1, hu1, ?_, m2, fs2, hu2, ?_⟩
  · show (m1.short_term.add_conversation "user" "hello" 1).conversations = _
    rw [hst1]
    rfl
  · rw [g2']
    simp only [Option.some_bind', Json.asNum_num, Option.some.injEq]
    norm_num

/-- Claim C8 (amended): after `close_session` (`update_long_term`) the
mutation methods do not raise and are not inert — there is no CLOSED state.
`record_conversation` still appends its turn, and a second `close_session`
runs to completion and increments `sessions_count` a second time
(double-counting); single invocation is purely a caller contract. -/
theorem claim_c8_no_closed_state (m : MemorySystem) (fs : FS) (now now2 t : ℚ)
    (role content : String) (ttp sc rl : ℚ)
    (hmax : 1 ≤ m.short_term.max_conversations)
    (h1 : m.long_term.data.get "total_time_played" = some (.num ttp))
    (h2 : m.long_term.data.get "sessions_count" = some (.num sc))
    (h3 : m.long_term.data.get "relationship_level" = some (.num rl)) :
    ∃ m1 fs1, m.update_long_term fs now = some (m1, fs1)
      ∧ (m1.add_conversation role content t).short_term.conversations.getLast?
          = some ⟨role, content, t⟩
      ∧ ∃ m2 fs2, m1.update_long_term fs1 now2 = some (m2, fs2)
        ∧ m2.long_term.data.get "sessions_count" = some (.num (sc + 2)) := by
  obtain ⟨m1, fs1, hu1, hst1, _, _, _, g1, g2, g3⟩ :=
    update_long_term_spec m fs now ttp sc rl h1 h2 h3
  obtain ⟨m2, fs2, hu2, _, _, _, _, _, g2', _⟩ :=
    update_long_term_spec m1 fs1 now2 _ _ _ g1 g2 g3
  refine ⟨m1, fs1, hu1, ?_, m2, fs2, hu2, ?_⟩
  · show (m1.short_term.add_conversation role content t).conversations.getLast? = _
    exact add_conversation_getLast m1.short_term role content t
      (by rw [hst1]; exact hmax)
  · have hadd : sc + 1 + 1 = sc + 2 := by ring
    rw [g2', hadd]

/-- Witness for the amended C8 on a fresh system: both mutations after the
first close succeed, and the second close double-counts the session. -/
theorem claim_c8_witness :
    ∃ m1 fs1, (MemorySystem.init "alice" [] "t0" 0).update_long_term [] 0
        = some (m1, fs1)
      ∧ (m1.add_conversation "user" "hello" 1).short_term.conversations.getLast?
          = some ⟨"user", "hello", 1⟩
      ∧ ∃ m2 fs2, m1.update_long_term fs1 5 = some (m2, fs2)
        ∧ m2.long_term.data.get "sessions_count" = some (.num (0 + 2)) :=
  claim_c8_no_closed_state (MemorySystem.init "alice" [] "t0" 0) [] 0 5 1
    "user" "hello" 0 0 1 (by decide) rfl rfl rfl
